import Mathlib

/-!
Shallow embedding of the MCP request-forwarding layer of the
mcp-adcp-protocol repository (src/server.py, src/main.py).

Every tool builds an HTTP request from its arguments, issues a single
call through the requests library, and converts the outcome into a
result envelope.  The embedding models:
  * JSON values (the payloads and decoded bodies);
  * the request descriptor each tool constructs;
  * the observable behaviour of one HTTP call (a response record, or a
    raised transport/timeout exception message), supplied by a backend
    oracle in a `World`;
  * the semantics of the library calls the source relies on:
    `response.raise_for_status()` raises an HTTPError exactly for
    status codes 400-599, with the message
    "<code> Client Error: <reason> for url: <url>" (400-499) or
    "<code> Server Error: <reason> for url: <url>" (500-599), and
    `response.json()` either yields the decoded body or raises a
    ValueError carried here in `jsonOutcome`;
  * Python truthiness for the `x or default`, `if not x` and `if x`
    idioms used on optional strings, lists and dicts (None and empty
    values are falsy).
Arguments are modelled at the types declared in the tool signatures
(the hosting FastMCP runtime validates them before the function body
runs), so payload construction is total, as in the source.
-/

/-- JSON values, as produced by payload construction and body decoding.
Numeric values are modelled by `Rat` (no arithmetic is ever performed
on them by this layer, they are passed through verbatim). -/
inductive JValue where
  | jnull : JValue
  | jbool : Bool → JValue
  | jnum : Rat → JValue
  | jstr : String → JValue
  | jarr : List JValue → JValue
  | jobj : List (String × JValue) → JValue

/-- Python `x or default` on an optional string: `None` and `""` are falsy. -/
def pyOrStr (x : Option String) (d : String) : String :=
  match x with
  | none => d
  | some s => if s == "" then d else s

/-- Python `x or default` on an optional list: `None` and `[]` are falsy. -/
def pyOrList (x : Option (List String)) (d : List String) : List String :=
  match x with
  | none => d
  | some l => if l.isEmpty then d else l

/-- Python `x or default` on an optional dict: `None` and the empty dict are falsy. -/
def pyOrDict (x : Option (List (String × JValue))) (d : List (String × JValue)) :
    List (String × JValue) :=
  match x with
  | none => d
  | some l => if l.isEmpty then d else l

/-- Python truthiness of an optional string, for `if x:` guards. -/
def pyTruthyStr : Option String → Bool
  | none => false
  | some s => !(s == "")

/-- An optional string placed in a JSON payload (Python None becomes JSON null). -/
def optJStr : Option String → JValue
  | none => JValue.jnull
  | some s => JValue.jstr s

/-- An optional number placed in a JSON payload. -/
def optJNum : Option Rat → JValue
  | none => JValue.jnull
  | some q => JValue.jnum q

/-- An optional integer placed in a JSON payload. -/
def optJInt : Option Int → JValue
  | none => JValue.jnull
  | some n => JValue.jnum (n : Rat)

/-- The request descriptor a tool constructs: method, URL, optional
headers, optional query parameters, optional JSON body, timeout in
seconds.  Query parameter and header mappings are association lists in
insertion order. -/
structure Request where
  method : String
  url : String
  headers : Option (List (String × JValue))
  params : Option (List (String × JValue))
  body : Option JValue
  timeoutSec : Nat

/-- The response of one HTTP exchange as observed through the requests
library API: status code, reason phrase, final URL, raw body text, and
the outcome of attempting to decode the body as JSON (`Except.error`
carries the ValueError message `response.json()` would raise). -/
structure HttpResponse where
  status : Nat
  reason : String
  url : String
  text : String
  jsonOutcome : Except String JValue

/-- Outcome of issuing one request: either a response, or a raised
transport/timeout exception whose `str(e)` is the carried message. -/
inductive HttpResult where
  | ok : HttpResponse → HttpResult
  | exn : String → HttpResult

/-- The ambient state a call depends on: the current calendar date as a
string (`str(date.today())`) and the backend, an oracle mapping each
request to the outcome of sending it. -/
structure World where
  today : String
  backend : Request → HttpResult

/-- `response.raise_for_status()`: returns the HTTPError message for
status codes 400-599 and nothing otherwise (statuses below 400,
including 3xx, do not raise). -/
def raiseForStatus (r : HttpResponse) : Option String :=
  if 400 ≤ r.status && r.status < 500 then
    some (toString r.status ++ " Client Error: " ++ r.reason ++ " for url: " ++ r.url)
  else if 500 ≤ r.status && r.status < 600 then
    some (toString r.status ++ " Server Error: " ++ r.reason ++ " for url: " ++ r.url)
  else none

/-- The common `response = requests...; response.raise_for_status();
return response.json()` sequence inside the try block: the decoded body
on success, otherwise the message of whichever exception was raised. -/
def tryRequest (h : HttpResult) : Except String JValue :=
  match h with
  | HttpResult.exn m => Except.error m
  | HttpResult.ok r =>
    match raiseForStatus r with
    | some m => Except.error m
    | none => r.jsonOutcome

/-- The value a tool returns, tagged by which shape it is: the decoded
JSON body passed through, the text fallback object, the protocol-tagged
ADCP failure object, or the bare error object. -/
inductive ToolResult where
  | body : JValue → ToolResult
  | textFallback : String → ToolResult
  | adcpFail : String → ToolResult
  | bareErr : String → ToolResult

/-- The JSON dictionary each result renders to, matching the literals in
the source. -/
def ToolResult.toJson : ToolResult → JValue
  | ToolResult.body v => v
  | ToolResult.textFallback s => JValue.jobj [("text", JValue.jstr s)]
  | ToolResult.adcpFail m =>
      JValue.jobj [("protocol", JValue.jstr "adcp"), ("version", JValue.jstr "2.3.0"),
                   ("status", JValue.jstr "failed"), ("message", JValue.jstr m)]
  | ToolResult.bareErr m => JValue.jobj [("error", JValue.jstr m)]

/-- Except branch of an ADCP-tagged tool: success passes the body
through, failure yields the protocol-tagged envelope with the given
message label prepended to `str(e)`. -/
def adcpResult (label : String) (e : Except String JValue) : ToolResult :=
  match e with
  | Except.ok v => ToolResult.body v
  | Except.error m => ToolResult.adcpFail (label ++ m)

/-- Except branch of a legacy tool: success passes the body through,
failure yields the bare error envelope. -/
def legacyResult (e : Except String JValue) : ToolResult :=
  match e with
  | Except.ok v => ToolResult.body v
  | Except.error m => ToolResult.bareErr m

/-- The generic passthrough (get_api_data): like a legacy tool, except a
body that fails to decode after a non-raising status yields the
`text` fallback object instead of an error. -/
def passthroughResult (h : HttpResult) : ToolResult :=
  match h with
  | HttpResult.exn m => ToolResult.bareErr m
  | HttpResult.ok r =>
    match raiseForStatus r with
    | some m => ToolResult.bareErr m
    | none =>
      match r.jsonOutcome with
      | Except.ok v => ToolResult.body v
      | Except.error _ => ToolResult.textFallback r.text

/-- Backend base address (src/server.py line 16). -/
def BASE_URL : String := "http://localhost:8000"

namespace Server

/-- Payload of get_products (src/server.py lines 49-57). -/
def get_products_payload (query : String) (channel date_from date_to : Option String)
    (max_budget : Option Rat) (today : String) : JValue :=
  JValue.jobj
    [("query", JValue.jstr query),
     ("channel", optJStr channel),
     ("date_from", JValue.jstr (pyOrStr date_from today)),
     ("date_to", optJStr date_to),
     ("filters", JValue.jobj [("max_budget", optJNum max_budget)])]

/-- Payload of create_media_buy (src/server.py lines 105-115). -/
def create_media_buy_payload (name advertiser : String) (package_ids : List String)
    (start_date end_date : String) (budget : Rat) (currency : String)
    (objectives : Option (List String)) : JValue :=
  JValue.jobj
    [("name", JValue.jstr name),
     ("advertiser", JValue.jstr advertiser),
     ("packages", JValue.jarr (package_ids.map (fun pid =>
        JValue.jobj [("package_id", JValue.jstr pid)]))),
     ("start_date", JValue.jstr start_date),
     ("end_date", JValue.jstr end_date),
     ("budget", JValue.jnum budget),
     ("currency", JValue.jstr currency),
     ("objectives", JValue.jarr ((pyOrList objectives ["reach", "awareness"]).map JValue.jstr)),
     ("kpis", JValue.jobj [])]

/-- Payload of discover_signals (src/server.py lines 187-194). -/
def discover_signals_payload (query : String) (signal_types : Option (List String))
    (min_scale : Option Int) : JValue :=
  JValue.jobj
    [("query", JValue.jstr query),
     ("signal_types", JValue.jarr ((pyOrList signal_types ["audience", "contextual"]).map JValue.jstr)),
     ("providers", JValue.jnull),
     ("filters", JValue.jobj [("min_scale", optJInt min_scale)])]

/-- Payload of activate_signal (src/server.py lines 232-236). -/
def activate_signal_payload (signal_id : String) (platform_ids : List String)
    (config : Option (List (String × JValue))) : JValue :=
  JValue.jobj
    [("signal_id", JValue.jstr signal_id),
     ("platforms", JValue.jarr (platform_ids.map (fun pid =>
        JValue.jobj [("platform_id", JValue.jstr pid)]))),
     ("config", JValue.jobj (pyOrDict config []))]

/-- Payload of sync_creatives (src/server.py lines 278-282). -/
def sync_creatives_payload (media_buy_id : String) (creative_urls : List String)
    (assignments : Option (List (String × JValue))) : JValue :=
  JValue.jobj
    [("media_buy_id", JValue.jstr media_buy_id),
     ("creatives", JValue.jarr (creative_urls.map (fun u =>
        JValue.jobj [("url", JValue.jstr u)]))),
     ("assignments", JValue.jobj (pyOrDict assignments []))]

/-- Query parameters of get_properties (src/server.py lines 320-324):
each optional filter is added only when Python-truthy. -/
def get_properties_params (publisher_domain tags : Option String) :
    List (String × JValue) :=
  (if pyTruthyStr publisher_domain then
    [("publisher_domain", JValue.jstr (pyOrStr publisher_domain ""))] else []) ++
  (if pyTruthyStr tags then [("tags", JValue.jstr (pyOrStr tags ""))] else [])

/-- Query parameters of get_epg_shows (src/server.py lines 364-368): the
date defaults to today when the argument is Python-falsy. -/
def get_epg_shows_params (channel : String) (query_date : Option String)
    (today : String) : List (String × JValue) :=
  [("channel", JValue.jstr channel), ("date", JValue.jstr (pyOrStr query_date today))]

/-- Query parameters of get_adbreaks (src/server.py lines 385-387): the
available flag is added only when the argument is not None. -/
def get_adbreaks_params (available : Option Bool) : List (String × JValue) :=
  match available with
  | none => []
  | some b => [("available", JValue.jbool b)]

/-- Query parameters of get_inventory (src/server.py lines 408-413): the
required channel and date, then region only when Python-truthy. -/
def get_inventory_params (channel query_date : String) (region : Option String) :
    List (String × JValue) :=
  [("channel", JValue.jstr channel), ("date", JValue.jstr query_date)] ++
  (if pyTruthyStr region then [("region", JValue.jstr (pyOrStr region ""))] else [])

end Server

namespace Main

/-- Query parameters of get_epg_shows (src/main.py lines 23-27): same
today-defaulting as the server variant. -/
def get_epg_shows_params (channel : String) (query_date : Option String)
    (today : String) : List (String × JValue) :=
  [("channel", JValue.jstr channel), ("date", JValue.jstr (pyOrStr query_date today))]

/-- Query parameters of get_solded_adbreaks (src/main.py line 41): the
required available string. -/
def get_solded_adbreaks_params (available : String) : List (String × JValue) :=
  [("available", JValue.jstr available)]

end Main

/-- One invocation of a registered tool with its arguments, covering the
thirteen tools of src/server.py and the four tools of src/main.py
(main_-prefixed constructors). -/
inductive ToolCall where
  | get_products (query : String) (channel date_from date_to : Option String)
      (max_budget : Option Rat)
  | create_media_buy (name advertiser : String) (package_ids : List String)
      (start_date end_date : String) (budget : Rat) (currency : String)
      (objectives : Option (List String))
  | get_media_buy_delivery (media_buy_id : String)
  | discover_signals (query : String) (signal_types : Option (List String))
      (min_scale : Option Int)
  | activate_signal (signal_id : String) (platform_ids : List String)
      (config : Option (List (String × JValue)))
  | sync_creatives (media_buy_id : String) (creative_urls : List String)
      (assignments : Option (List (String × JValue)))
  | get_properties (publisher_domain tags : Option String)
  | get_channels
  | get_epg_shows (channel : String) (query_date : Option String)
  | get_adbreaks (available : Option Bool)
  | get_inventory (channel query_date : String) (region : Option String)
  | book_ad (inventory_id : String)
  | get_api_data (url method : String)
      (headers params body : Option (List (String × JValue)))
  | main_get_epg_shows (channel : String) (query_date : Option String)
  | main_get_solded_adbreaks (available : String)
  | main_get_channels
  | main_get_api_data (url method : String)
      (headers params body : Option (List (String × JValue)))

/-- The request each tool constructs from its arguments and the current
date, transcribed from the URL, params/json and timeout of each call in
src/server.py and src/main.py. -/
def toolRequest (c : ToolCall) (today : String) : Request :=
  match c with
  | ToolCall.get_products query channel date_from date_to max_budget =>
      ⟨"POST", BASE_URL ++ "/api/v1/adcp/products", none, none,
       some (Server.get_products_payload query channel date_from date_to max_budget today), 15⟩
  | ToolCall.create_media_buy name advertiser package_ids start_date end_date budget currency objectives =>
      ⟨"POST", BASE_URL ++ "/api/v1/adcp/media-buy", none, none,
       some (Server.create_media_buy_payload name advertiser package_ids start_date end_date
         budget currency objectives), 15⟩
  | ToolCall.get_media_buy_delivery media_buy_id =>
      ⟨"GET", BASE_URL ++ "/api/v1/adcp/media-buy/" ++ media_buy_id ++ "/delivery",
       none, none, none, 10⟩
  | ToolCall.discover_signals query signal_types min_scale =>
      ⟨"POST", BASE_URL ++ "/api/v1/adcp/signals/discover", none, none,
       some (Server.discover_signals_payload query signal_types min_scale), 15⟩
  | ToolCall.activate_signal signal_id platform_ids config =>
      ⟨"POST", BASE_URL ++ "/api/v1/adcp/signals/activate", none, none,
       some (Server.activate_signal_payload signal_id platform_ids config), 15⟩
  | ToolCall.sync_creatives media_buy_id creative_urls assignments =>
      ⟨"POST", BASE_URL ++ "/api/v1/adcp/creatives/sync", none, none,
       some (Server.sync_creatives_payload media_buy_id creative_urls assignments), 15⟩
  | ToolCall.get_properties publisher_domain tags =>
      ⟨"GET", BASE_URL ++ "/api/v1/adcp/properties", none,
       some (Server.get_properties_params publisher_domain tags), none, 10⟩
  | ToolCall.get_channels =>
      ⟨"GET", BASE_URL ++ "/api/v1/channels", none, none, none, 10⟩
  | ToolCall.get_epg_shows channel query_date =>
      ⟨"GET", BASE_URL ++ "/api/v1/programs", none,
       some (Server.get_epg_shows_params channel query_date today), none, 10⟩
  | ToolCall.get_adbreaks available =>
      ⟨"GET", BASE_URL ++ "/api/v1/adbreaks", none,
       some (Server.get_adbreaks_params available), none, 10⟩
  | ToolCall.get_inventory channel query_date region =>
      ⟨"GET", BASE_URL ++ "/api/v1/inventory", none,
       some (Server.get_inventory_params channel query_date region), none, 10⟩
  | ToolCall.book_ad inventory_id =>
      ⟨"POST", BASE_URL ++ "/api/v1/book_ad", none, none,
       some (JValue.jobj [("inventory_id", JValue.jstr inventory_id)]), 10⟩
  | ToolCall.get_api_data url method headers params body =>
      ⟨method, url, headers, params, (body.map JValue.jobj), 10⟩
  | ToolCall.main_get_epg_shows channel query_date =>
      ⟨"GET", "http://localhost:8000/api/v1/programs", none,
       some (Main.get_epg_shows_params channel query_date today), none, 10⟩
  | ToolCall.main_get_solded_adbreaks available =>
      ⟨"GET", "http://localhost:8000/api/v1/adbreaks", none,
       some (Main.get_solded_adbreaks_params available), none, 10⟩
  | ToolCall.main_get_channels =>
      ⟨"GET", "http://localhost:8000/api/v1/channels", none, none, none, 10⟩
  | ToolCall.main_get_api_data url method headers params body =>
      ⟨method, url, headers, params, (body.map JValue.jobj), 10⟩

/-- Whether a tool is one of the seven ADCP-tagged operations of
src/server.py (protocol-tagged error envelope). -/
def isAdcpCall : ToolCall → Bool
  | ToolCall.get_products .. => true
  | ToolCall.create_media_buy .. => true
  | ToolCall.get_media_buy_delivery .. => true
  | ToolCall.discover_signals .. => true
  | ToolCall.activate_signal .. => true
  | ToolCall.sync_creatives .. => true
  | ToolCall.get_properties .. => true
  | _ => false

/-- Whether a tool is a generic passthrough (get_api_data of either file). -/
def isPassthroughCall : ToolCall → Bool
  | ToolCall.get_api_data .. => true
  | ToolCall.main_get_api_data .. => true
  | _ => false

/-- Whether a tool is a pure GET lookup (no side effect on the backend). -/
def isPureLookup : ToolCall → Bool
  | ToolCall.get_media_buy_delivery .. => true
  | ToolCall.get_properties .. => true
  | ToolCall.get_channels => true
  | ToolCall.get_epg_shows .. => true
  | ToolCall.get_adbreaks .. => true
  | ToolCall.get_inventory .. => true
  | ToolCall.main_get_epg_shows .. => true
  | ToolCall.main_get_solded_adbreaks .. => true
  | ToolCall.main_get_channels => true
  | _ => false

/-- The per-operation message label each ADCP tool prepends to `str(e)`
in its failure envelope, transcribed from the except blocks of
src/server.py. -/
def adcpLabel : ToolCall → String
  | ToolCall.get_products .. => "Product discovery error: "
  | ToolCall.create_media_buy .. => "Media buy creation error: "
  | ToolCall.get_media_buy_delivery .. => "Delivery data error: "
  | ToolCall.discover_signals .. => "Signal discovery error: "
  | ToolCall.activate_signal .. => "Signal activation error: "
  | ToolCall.sync_creatives .. => "Creative sync error: "
  | ToolCall.get_properties .. => "Property discovery error: "
  | _ => ""

/-- How each tool turns the outcome of its one HTTP call into its
result: the ADCP tools wrap failures in the protocol-tagged envelope
with their per-operation message label, the passthrough tools add the
text fallback, and the legacy tools return the bare error envelope. -/
def handleResult (c : ToolCall) (h : HttpResult) : ToolResult :=
  if isAdcpCall c = true then adcpResult (adcpLabel c) (tryRequest h)
  else if isPassthroughCall c = true then passthroughResult h
  else legacyResult (tryRequest h)

/-- One complete tool invocation: build the request from the arguments
and the current date, send it once to the backend, convert the outcome. -/
def callTool (c : ToolCall) (w : World) : ToolResult :=
  handleResult c (w.backend (toolRequest c w.today))

/-- Field lookup in the JSON body of a request (for inspecting constructed payloads). -/
def Request.bodyField (r : Request) (k : String) : Option JValue :=
  r.body.bind (fun v =>
    match v with
    | JValue.jobj fields => fields.lookup k
    | _ => none)

/-- Key lookup in the query parameters of a request. -/
def Request.paramField (r : Request) (k : String) : Option JValue :=
  r.params.bind (fun l => l.lookup k)

/-- One argument of a Python tool signature: its name and whether it has
a default value (is optional for the caller). -/
structure PyArg where
  name : String
  hasDefault : Bool

/-- Signature of get_inventory (src/server.py lines 401-405):
channel and query_date are required, region defaults to None. -/
def get_inventory_signature : List PyArg :=
  [⟨"channel", false⟩, ⟨"query_date", false⟩, ⟨"region", true⟩]

/-- Signature of get_epg_shows (src/server.py line 362):
channel is required, query_date defaults to None. -/
def get_epg_shows_signature : List PyArg :=
  [⟨"channel", false⟩, ⟨"query_date", true⟩]

/-- Whether a signature lets the caller omit the query_date argument. -/
def dateArgOptional (sig : List PyArg) : Bool :=
  sig.any (fun a => a.name == "query_date" && a.hasDefault)

/-- A string contains a substring. -/
def strContains (s sub : String) : Prop :=
  ∃ a b, s = a ++ (sub ++ b)

/-- An HTTP call failed as the forwarder sees it: the library raised a
transport/timeout exception, or the status code is in 400-599 so
raise_for_status raises. -/
def httpFails (h : HttpResult) : Prop :=
  (∃ m, h = HttpResult.exn m) ∨
  (∃ r, h = HttpResult.ok r ∧ 400 ≤ r.status ∧ r.status < 600)

/-- Whether a result is one of the two error envelopes. -/
def ToolResult.isErrorEnvelope : ToolResult → Bool
  | ToolResult.adcpFail _ => true
  | ToolResult.bareErr _ => true
  | _ => false

/-- A backend response with the non-2xx status 300 and a decodable JSON body. -/
def resp300 : HttpResponse :=
  ⟨300, "Multiple Choices", "http://localhost:8000/api/v1/channels", "42",
   Except.ok (JValue.jnum 42)⟩

/-- A world whose backend answers every request with status 300. -/
def w300 : World := ⟨"2026-10-12", fun _ => HttpResult.ok resp300⟩

/-- A world whose backend raises a transport error on every request. -/
def wFail : World := ⟨"2026-10-12", fun _ => HttpResult.exn "Connection refused"⟩

/-- A 200 response whose body is not valid JSON. -/
def respPlain : HttpResponse :=
  ⟨200, "OK", "http://example.com/raw", "plain text body",
   Except.error "Expecting value: line 1 column 1 (char 0)"⟩

/-- A world whose backend answers every request with respPlain. -/
def wPlain : World := ⟨"2026-10-12", fun _ => HttpResult.ok respPlain⟩

/-- A 404 response. -/
def resp404 : HttpResponse :=
  ⟨404, "NOT FOUND", "http://localhost:8000/api/v1/unknown", "",
   Except.error "Expecting value: line 1 column 1 (char 0)"⟩

/-- A world whose backend answers every request with resp404. -/
def w404 : World := ⟨"2026-10-12", fun _ => HttpResult.ok resp404⟩

/-- A successful channels response. -/
def respChannels : HttpResponse :=
  ⟨200, "OK", "http://localhost:8000/api/v1/channels", "[]",
   Except.ok (JValue.jarr [])⟩

/-- A world whose backend answers every request with respChannels. -/
def wDet1 : World := ⟨"2026-10-12", fun _ => HttpResult.ok respChannels⟩

/-- A world whose backend answers the channels request like wDet1 but
fails on every other URL. -/
def wDet2 : World :=
  ⟨"2026-10-12", fun req =>
    if req.url == BASE_URL ++ "/api/v1/channels" then HttpResult.ok respChannels
    else HttpResult.exn "Connection refused"⟩

theorem raiseForStatus_eq_none (r : HttpResponse) (h : r.status < 400) :
    raiseForStatus r = none := by
  unfold raiseForStatus
  split
  · next hc => simp at hc; omega
  · split
    · next hc => simp at hc; omega
    · rfl

theorem raiseForStatus_client (r : HttpResponse) (h4 : 400 ≤ r.status)
    (h5 : r.status < 500) :
    raiseForStatus r =
      some (toString r.status ++ " Client Error: " ++ r.reason ++ " for url: " ++ r.url) := by
  have hc : (decide (400 ≤ r.status) && decide (r.status < 500)) = true := by
    simp [h4, h5]
  unfold raiseForStatus
  rw [if_pos hc]

theorem raiseForStatus_eq_some (r : HttpResponse) (h4 : 400 ≤ r.status)
    (h6 : r.status < 600) : ∃ m, raiseForStatus r = some m := by
  unfold raiseForStatus
  split
  · exact ⟨_, rfl⟩
  · split
    · exact ⟨_, rfl⟩
    · next hc1 hc2 => simp at hc1 hc2; omega

theorem tryRequest_error_of_fails (h : HttpResult) (hf : httpFails h) :
    ∃ m, tryRequest h = Except.error m := by
  rcases hf with ⟨m, rfl⟩ | ⟨r, rfl, h4, h6⟩
  · exact ⟨m, rfl⟩
  · rcases raiseForStatus_eq_some r h4 h6 with ⟨m, hm⟩
    exact ⟨m, by simp [tryRequest, hm]⟩

theorem passthroughResult_err_of_fails (h : HttpResult) (hf : httpFails h) :
    ∃ m, passthroughResult h = ToolResult.bareErr m := by
  rcases hf with ⟨m, rfl⟩ | ⟨r, rfl, h4, h6⟩
  · exact ⟨m, rfl⟩
  · rcases raiseForStatus_eq_some r h4 h6 with ⟨m, hm⟩
    exact ⟨m, by simp [passthroughResult, hm]⟩

theorem adcpResult_ne_bareErr (label : String) (e : Except String JValue) (m : String) :
    adcpResult label e ≠ ToolResult.bareErr m := by
  cases e <;> simp [adcpResult]

theorem adcpResult_ne_textFallback (label : String) (e : Except String JValue) (s : String) :
    adcpResult label e ≠ ToolResult.textFallback s := by
  cases e <;> simp [adcpResult]

theorem legacyResult_ne_adcpFail (e : Except String JValue) (m : String) :
    legacyResult e ≠ ToolResult.adcpFail m := by
  cases e <;> simp [legacyResult]

theorem legacyResult_ne_textFallback (e : Except String JValue) (s : String) :
    legacyResult e ≠ ToolResult.textFallback s := by
  cases e <;> simp [legacyResult]

theorem passthroughResult_ne_adcpFail (h : HttpResult) (m : String) :
    passthroughResult h ≠ ToolResult.adcpFail m := by
  unfold passthroughResult
  split
  · simp
  · split
    · simp
    · split <;> simp

theorem not_adcp_of_passthrough (c : ToolCall) (hp : isPassthroughCall c = true) :
    isAdcpCall c = false := by
  cases c <;> simp_all [isPassthroughCall, isAdcpCall]

theorem pyOrList_ne_nil (o : Option (List String)) (d : List String) (hd : d ≠ []) :
    pyOrList o d ≠ [] := by
  cases o with
  | none => simpa [pyOrList] using hd
  | some l =>
    by_cases h : l.isEmpty
    · simpa [pyOrList, h] using hd
    · simp only [pyOrList, h, if_false, Bool.false_eq_true]
      simpa [List.isEmpty_iff] using h

/-- Claim C1: for every tool operation, every combination of arguments
and every backend behaviour (success, non-2xx status, transport error,
timeout, undecodable body), the call returns exactly one result value,
and that value is one of the Result Envelope shapes: the decoded JSON
body, the text-fallback object, or an error object (protocol-tagged or
bare).  No exception propagates: every tool, payload construction
included, is a total function into ToolResult. -/
theorem C1_every_call_one_envelope (c : ToolCall) (w : World) :
    (∃ v, callTool c w = ToolResult.body v) ∨
    (∃ s, callTool c w = ToolResult.textFallback s) ∨
    (∃ m, callTool c w = ToolResult.adcpFail m) ∨
    (∃ m, callTool c w = ToolResult.bareErr m) := by
  cases h : callTool c w with
  | body v => exact Or.inl ⟨v, rfl⟩
  | textFallback s => exact Or.inr (Or.inl ⟨s, rfl⟩)
  | adcpFail m => exact Or.inr (Or.inr (Or.inl ⟨m, rfl⟩))
  | bareErr m => exact Or.inr (Or.inr (Or.inr ⟨m, rfl⟩))

/-- Claim C3: the packages field of the JSON body constructed by
create_media_buy is exactly the list of single-key objects obtained by
mapping each package id x to the object with the single field
package_id = x, preserving order and length; the second conjunct
instantiates the map at the ids a, b from the claim. -/
theorem C3_packages_field (name advertiser : String) (package_ids : List String)
    (start_date end_date : String) (budget : Rat) (currency : String)
    (objectives : Option (List String)) (today : String) :
    (toolRequest (ToolCall.create_media_buy name advertiser package_ids start_date
        end_date budget currency objectives) today).bodyField "packages" =
      some (JValue.jarr (package_ids.map (fun x =>
        JValue.jobj [("package_id", JValue.jstr x)]))) ∧
    (["a", "b"].map (fun x => JValue.jobj [("package_id", JValue.jstr x)])) =
      [JValue.jobj [("package_id", JValue.jstr "a")],
       JValue.jobj [("package_id", JValue.jstr "b")]] :=
  ⟨rfl, rfl⟩

/-- Claim C4, counterexample: the claim counts get_inventory among the
lookups with an optional date argument, but in src/server.py its
query_date parameter has no default (it is required), and the date sent
is always the one given, never the current date: with query_date
2020-01-01 on 2026-10-12 the request carries 2020-01-01. -/
theorem C4_counterexample :
    dateArgOptional get_inventory_signature = false ∧
    (toolRequest (ToolCall.get_inventory "al_aoula" "2020-01-01" none)
        "2026-10-12").paramField "date" = some (JValue.jstr "2020-01-01") :=
  ⟨rfl, rfl⟩

/-- Claim C4 as amended: among the GET-style lookups only the program
schedule operations (get_epg_shows in src/server.py and src/main.py)
take an optional date argument, and when it is omitted the date query
parameter equals the current calendar date; the date argument of
get_inventory is required and is forwarded verbatim. -/
theorem C4_amended_date_defaulting (channel today : String) :
    dateArgOptional get_epg_shows_signature = true ∧
    (toolRequest (ToolCall.get_epg_shows channel none) today).paramField "date" =
      some (JValue.jstr today) ∧
    (toolRequest (ToolCall.main_get_epg_shows channel none) today).paramField "date" =
      some (JValue.jstr today) ∧
    dateArgOptional get_inventory_signature = false ∧
    (∀ query_date region,
      (toolRequest (ToolCall.get_inventory channel query_date region) today).paramField "date" =
        some (JValue.jstr query_date)) :=
  ⟨rfl, rfl, rfl, rfl, fun _ _ => rfl⟩

/-- Claim C5: omitted optional list fields take fixed deterministic
defaults in the constructed body: create_media_buy without objectives
sends objectives = [reach, awareness], and discover_signals without
signal_types sends signal_types = [audience, contextual]. -/
theorem C5_default_lists (name advertiser : String) (package_ids : List String)
    (start_date end_date : String) (budget : Rat) (currency query : String)
    (min_scale : Option Int) (today : String) :
    (toolRequest (ToolCall.create_media_buy name advertiser package_ids start_date
        end_date budget currency none) today).bodyField "objectives" =
      some (JValue.jarr [JValue.jstr "reach", JValue.jstr "awareness"]) ∧
    (toolRequest (ToolCall.discover_signals query none min_scale) today).bodyField
        "signal_types" =
      some (JValue.jarr [JValue.jstr "audience", JValue.jstr "contextual"]) :=
  ⟨rfl, rfl⟩

/-- Claim C6: omitted optional filters are absent from the constructed
query-parameter mapping rather than sent empty or null: get_adbreaks
omits available when it is None, get_inventory omits region when
absent, and get_properties omits publisher_domain and tags when
absent. -/
theorem C6_omitted_filters_absent (channel query_date today : String) :
    (toolRequest (ToolCall.get_adbreaks none) today).paramField "available" = none ∧
    (toolRequest (ToolCall.get_inventory channel query_date none) today).paramField
        "region" = none ∧
    (toolRequest (ToolCall.get_properties none none) today).paramField
        "publisher_domain" = none ∧
    (toolRequest (ToolCall.get_properties none none) today).paramField "tags" = none :=
  ⟨rfl, rfl, rfl, rfl⟩

/-- Claim C2, counterexample: the claim treats every non-2xx status as a
failure, but raise_for_status only raises for statuses 400-599; a
backend reply with the non-2xx status 300 and a decodable JSON body
makes get_channels return the decoded body, not an error envelope. -/
theorem C2_counterexample :
    callTool ToolCall.get_channels w300 = ToolResult.body (JValue.jnum 42) ∧
    (callTool ToolCall.get_channels w300).isErrorEnvelope = false :=
  ⟨rfl, rfl⟩

/-- Claim C2 as amended: for every operation and every failure, where a
failure is a transport error, a timeout, or an HTTP status in 400-599
(statuses below 400, including 3xx, are not failures), the error
envelope shape is determined by the operation family: ADCP-tagged
operations return the protocol-tagged envelope, legacy operations and
the generic passthrough return the bare error object, and the two
shapes are never mixed per operation. -/
theorem C2_amended_error_shape_by_family (c : ToolCall) (w : World) :
    ((∀ req, httpFails (w.backend req)) →
      if isAdcpCall c = true then ∃ m, callTool c w = ToolResult.adcpFail m
      else ∃ m, callTool c w = ToolResult.bareErr m) ∧
    (isAdcpCall c = true → ∀ m, callTool c w ≠ ToolResult.bareErr m) ∧
    (isAdcpCall c = false → ∀ m, callTool c w ≠ ToolResult.adcpFail m) := by
  refine ⟨?_, ?_, ?_⟩
  · intro hfail
    by_cases hA : isAdcpCall c = true
    · rw [if_pos hA]
      obtain ⟨m, hm⟩ := tryRequest_error_of_fails _ (hfail (toolRequest c w.today))
      exact ⟨adcpLabel c ++ m, by simp [callTool, handleResult, hA, hm, adcpResult]⟩
    · rw [if_neg hA]
      by_cases hp : isPassthroughCall c = true
      · obtain ⟨m, hm⟩ := passthroughResult_err_of_fails _ (hfail (toolRequest c w.today))
        exact ⟨m, by simp [callTool, handleResult, hA, hp, hm]⟩
      · obtain ⟨m, hm⟩ := tryRequest_error_of_fails _ (hfail (toolRequest c w.today))
        exact ⟨m, by simp [callTool, handleResult, hA, hp, hm, legacyResult]⟩
  · intro hA m
    simp only [callTool, handleResult, hA, if_true]
    exact adcpResult_ne_bareErr _ _ _
  · intro hA m
    simp only [callTool, handleResult, hA]
    rw [if_neg (by simp)]
    by_cases hp : isPassthroughCall c = true
    · rw [if_pos hp]
      exact passthroughResult_ne_adcpFail _ _
    · rw [if_neg hp]
      exact legacyResult_ne_adcpFail _ _

/-- Witness for the amended claim C2: with a backend that raises a
transport error on every request, the ADCP operation get_products
returns the protocol-tagged failure envelope. -/
theorem C2_witness :
    ∃ m, callTool (ToolCall.get_products "q" none none none none) wFail =
      ToolResult.adcpFail m :=
  (C2_amended_error_shape_by_family (ToolCall.get_products "q" none none none none)
    wFail).1 (fun _ => Or.inl ⟨"Connection refused", rfl⟩)

/-- Claim C7: for the generic passthrough operation, a backend response
with a 2xx status whose body is not valid JSON yields the text fallback
object carrying the raw body, and no other operation ever produces the
text fallback shape. -/
theorem C7_passthrough_text_fallback (c : ToolCall) (w : World) (resp : HttpResponse)
    (em : String) (hp : isPassthroughCall c = true)
    (hresp : w.backend (toolRequest c w.today) = HttpResult.ok resp)
    (h2 : 200 ≤ resp.status ∧ resp.status < 300)
    (hjson : resp.jsonOutcome = Except.error em) :
    callTool c w = ToolResult.textFallback resp.text ∧
    (∀ c' w' s, isPassthroughCall c' = false →
      callTool c' w' ≠ ToolResult.textFallback s) := by
  constructor
  · have hA := not_adcp_of_passthrough c hp
    have hrs : raiseForStatus resp = none := raiseForStatus_eq_none resp (by omega)
    simp [callTool, handleResult, hA, hp, hresp, passthroughResult, hrs, hjson]
  · intro c' w' s hp'
    by_cases hA : isAdcpCall c' = true
    · simp only [callTool, handleResult, hA, if_true]
      exact adcpResult_ne_textFallback _ _ _
    · simp only [callTool, handleResult, hA]
      rw [if_neg (by simp), if_neg (by simp [hp'])]
      exact legacyResult_ne_textFallback _ _

/-- Witness for claim C7: a 200 response with the undecodable body
"plain text body" makes get_api_data return the text fallback. -/
theorem C7_witness :
    callTool (ToolCall.get_api_data "http://example.com/raw" "GET" none none none)
      wPlain = ToolResult.textFallback "plain text body" :=
  (C7_passthrough_text_fallback
    (ToolCall.get_api_data "http://example.com/raw" "GET" none none none) wPlain
    respPlain "Expecting value: line 1 column 1 (char 0)" rfl rfl (by decide) rfl).1

/-- Claim C8: for the generic passthrough operation, a backend response
with status 404 yields the bare error object whose message contains the
substring 404 (the HTTPError message of raise_for_status). -/
theorem C8_passthrough_404 (c : ToolCall) (w : World) (resp : HttpResponse)
    (hp : isPassthroughCall c = true)
    (hresp : w.backend (toolRequest c w.today) = HttpResult.ok resp)
    (h404 : resp.status = 404) :
    callTool c w = ToolResult.bareErr
      ("404" ++ (" Client Error: " ++ (resp.reason ++ (" for url: " ++ resp.url)))) ∧
    strContains
      ("404" ++ (" Client Error: " ++ (resp.reason ++ (" for url: " ++ resp.url))))
      "404" := by
  have hrs := raiseForStatus_client resp (by omega) (by omega)
  rw [h404] at hrs
  have hM : (toString (404 : Nat) ++ " Client Error: " ++ resp.reason ++ " for url: "
        ++ resp.url) =
      "404" ++ (" Client Error: " ++ (resp.reason ++ (" for url: " ++ resp.url))) := by
    simp only [String.append_assoc]
    rfl
  rw [hM] at hrs
  constructor
  · have hA := not_adcp_of_passthrough c hp
    simp [callTool, handleResult, hA, hp, hresp, passthroughResult, hrs]
  · refine ⟨"", " Client Error: " ++ (resp.reason ++ (" for url: " ++ resp.url)), ?_⟩
    rw [String.empty_append]

/-- Witness for claim C8: a 404 response makes get_api_data return the
bare error object with the 404 message. -/
theorem C8_witness :
    callTool (ToolCall.get_api_data "http://localhost:8000/api/v1/unknown" "GET"
        none none none) w404 =
      ToolResult.bareErr ("404" ++ (" Client Error: " ++ ("NOT FOUND" ++
        (" for url: " ++ "http://localhost:8000/api/v1/unknown")))) ∧
    strContains ("404" ++ (" Client Error: " ++ ("NOT FOUND" ++
      (" for url: " ++ "http://localhost:8000/api/v1/unknown")))) "404" :=
  C8_passthrough_404
    (ToolCall.get_api_data "http://localhost:8000/api/v1/unknown" "GET" none none none)
    w404 resp404 rfl rfl rfl

/-- Claim C9: a pure lookup operation is a deterministic function of its
arguments, the current date and the backend reply to the one request it
issues: two runs in worlds that agree on the date and on that reply
produce identical results. -/
theorem C9_pure_lookup_deterministic (c : ToolCall) (w1 w2 : World)
    (_hpure : isPureLookup c = true) (htoday : w1.today = w2.today)
    (hbackend : w1.backend (toolRequest c w1.today) =
      w2.backend (toolRequest c w1.today)) :
    callTool c w1 = callTool c w2 := by
  unfold callTool
  rw [← htoday, hbackend]

/-- Witness for claim C9: get_channels yields the same result in two
worlds that agree on the date and on the channels reply, although the
second backend fails on every other URL. -/
theorem C9_witness :
    isPureLookup ToolCall.get_channels = true ∧
    callTool ToolCall.get_channels wDet1 = callTool ToolCall.get_channels wDet2 :=
  ⟨rfl, C9_pure_lookup_deterministic ToolCall.get_channels wDet1 wDet2 rfl rfl rfl⟩

/-- Claim C10: an explicit empty list is treated like an omitted field
(Python or-defaulting treats the empty list as falsy): objectives = []
and signal_types = [] yield the same defaults as omission, and no call
can make the constructed objectives or signal_types list empty. -/
theorem C10_empty_list_like_omitted (name advertiser : String)
    (package_ids : List String) (start_date end_date : String) (budget : Rat)
    (currency query : String) (min_scale : Option Int) (today : String) :
    (toolRequest (ToolCall.create_media_buy name advertiser package_ids start_date
        end_date budget currency (some [])) today).bodyField "objectives" =
      some (JValue.jarr [JValue.jstr "reach", JValue.jstr "awareness"]) ∧
    (toolRequest (ToolCall.discover_signals query (some []) min_scale)
        today).bodyField "signal_types" =
      some (JValue.jarr [JValue.jstr "audience", JValue.jstr "contextual"]) ∧
    (∀ objectives, (toolRequest (ToolCall.create_media_buy name advertiser package_ids
        start_date end_date budget currency objectives) today).bodyField "objectives" ≠
      some (JValue.jarr [])) ∧
    (∀ signal_types, (toolRequest (ToolCall.discover_signals query signal_types
        min_scale) today).bodyField "signal_types" ≠ some (JValue.jarr [])) := by
  refine ⟨rfl, rfl, ?_, ?_⟩
  · intro o h
    have h2 : some (JValue.jarr ((pyOrList o ["reach", "awareness"]).map
        JValue.jstr)) = some (JValue.jarr []) := h
    simp only [Option.some.injEq, JValue.jarr.injEq, List.map_eq_nil_iff] at h2
    exact pyOrList_ne_nil o ["reach", "awareness"] (by simp) h2
  · intro o h
    have h2 : some (JValue.jarr ((pyOrList o ["audience", "contextual"]).map
        JValue.jstr)) = some (JValue.jarr []) := h
    simp only [Option.some.injEq, JValue.jarr.injEq, List.map_eq_nil_iff] at h2
    exact pyOrList_ne_nil o ["audience", "contextual"] (by simp) h2
